import Mathlib

/-!
Verification development for the Flooded Island game backend
(`backend/game/board.py`, `backend/game/validator.py`,
`backend/game/win_checker.py`, `backend/game/room_manager.py`,
`backend/routers/websocket.py`, `backend/models/game.py`).

Conventions of the shallow embedding:
* Python `ValueError` / any uncaught exception is modelled with
  `Option` (for `Board` accessors) and `Except String` (for the
  validator functions, whose internal `get_field_state` calls can in
  principle raise).
* the role called `JOURNEYMAN` in `routers/websocket.py` is the role
  called `ADVENTURER` in `models/game.py`; the embedding uses the
  `models/game.py` name `adventurer` for this mover role throughout.
* timestamps (`datetime`) are modelled as integers (seconds); the
  difference `now - ended_at` corresponds to the Python timedelta.
-/

deriving instance DecidableEq for Except

namespace FloodedIsland

/-- State of a field on the game grid (`models/game.py`, `FieldState`). -/
inductive FieldState where
  | DRY
  | FLOODED
deriving DecidableEq, Repr

/-- Player role (`models/game.py`, `PlayerRole`); `adventurer` is the mover
role (named `journeyman` in the websocket router variant). -/
inductive PlayerRole where
  | adventurer
  | weather
deriving DecidableEq, Repr

/-- Room lifecycle status (`models/game.py`, `GameStatus`). -/
inductive GameStatus where
  | waiting
  | configuring
  | active
  | ended
deriving DecidableEq, Repr

/-- Coordinates on the grid (`models/game.py`, `Position`): pydantic
enforces `x ≥ 0` and `y ≥ 0`, so both coordinates are naturals. -/
structure Position where
  x : Nat
  y : Nat
deriving DecidableEq, Repr

/-- Game board (`game/board.py`, class `Board`): declared dimensions plus
the row-major grid, `grid[y][x]`. -/
structure Board where
  grid_width : Nat
  grid_height : Nat
  grid : List (List FieldState)
deriving DecidableEq, Repr

/-- Constructor `Board.__init__`: raises `ValueError` (modelled as `none`)
unless both dimensions lie in `[3,10]`; otherwise builds an all-DRY
`grid_height × grid_width` grid. -/
def Board.mk? (grid_width grid_height : Nat) : Option Board :=
  if ¬ (3 ≤ grid_width ∧ grid_width ≤ 10) then none
  else if ¬ (3 ≤ grid_height ∧ grid_height ≤ 10) then none
  else some ⟨grid_width, grid_height,
    List.replicate grid_height (List.replicate grid_width FieldState.DRY)⟩

/-- Bounds check `Board.is_valid_position`. -/
def Board.is_valid_position (b : Board) (p : Position) : Bool :=
  decide (p.x < b.grid_width) && decide (p.y < b.grid_height)

/-- Accessor `Board.get_field_state`: `none` models the `ValueError`
raised on an out-of-bounds position (and the index error on a grid that
does not match the declared dimensions). -/
def Board.get_field_state (b : Board) (p : Position) : Option FieldState :=
  if b.is_valid_position p then (b.grid[p.y]?).bind (fun row => row[p.x]?) else none

/-- Mutator `Board.set_field_state`. In the source an out-of-bounds
position raises `ValueError`; every call site first validates the
position, and the embedding models the unreachable error branch as
leaving the board unchanged. -/
def Board.set_field_state (b : Board) (p : Position) (s : FieldState) : Board :=
  if b.is_valid_position p then
    { b with grid := b.grid.set p.y (((b.grid[p.y]?).getD []).set p.x s) }
  else b

/-- Offsets tried by `get_adjacent_positions` with `include_diagonals=True`
(NW, N, NE, E, SE, S, SW, W, in source order). -/
def directions8 : List (Int × Int) :=
  [(-1, -1), (0, -1), (1, -1), (1, 0), (1, 1), (0, 1), (-1, 1), (-1, 0)]

/-- Offsets tried by `get_adjacent_positions` with `include_diagonals=False`
(N, E, S, W, in source order). -/
def directions4 : List (Int × Int) :=
  [(0, -1), (1, 0), (0, 1), (-1, 0)]

/-- Neighbourhood computation `Board.get_adjacent_positions`: each
candidate offset is kept only when the resulting coordinates are inside
the grid bounds; out-of-bounds candidates are silently omitted. -/
def Board.get_adjacent_positions (b : Board) (p : Position)
    (include_diagonals : Bool) : List Position :=
  (if include_diagonals then directions8 else directions4).filterMap
    (fun d =>
      let nx : Int := (p.x : Int) + d.1
      let ny : Int := (p.y : Int) + d.2
      if 0 ≤ nx ∧ nx < (b.grid_width : Int) ∧ 0 ≤ ny ∧ ny < (b.grid_height : Int)
      then some ⟨nx.toNat, ny.toNat⟩ else none)

/-- Structural invariant of a constructed board (spec §3: every position
inside the declared bounds has a defined state): the grid really has
`grid_height` rows of `grid_width` cells each. -/
def Board.wf (b : Board) : Prop :=
  b.grid.length = b.grid_height ∧ ∀ row ∈ b.grid, row.length = b.grid_width

instance (b : Board) : Decidable b.wf := by
  unfold Board.wf
  infer_instance

/-- Validator `validate_adventurer_move` (`game/validator.py`): checks
bounds, 8-adjacency, and that the target field is DRY, in that order;
returns `(is_valid, error_message)`.  `Except.error` models an uncaught
exception escaping the function. -/
def validate_adventurer_move (board : Board) (current_pos target_pos : Position) :
    Except String (Bool × String) :=
  if board.is_valid_position target_pos = false then
    Except.ok (false, "Target position (" ++ toString target_pos.x ++ ", " ++
      toString target_pos.y ++ ") is outside grid bounds")
  else if target_pos ∉ board.get_adjacent_positions current_pos true then
    Except.ok (false, "Target position (" ++ toString target_pos.x ++ ", " ++
      toString target_pos.y ++ ") is not adjacent to current position (" ++
      toString current_pos.x ++ ", " ++ toString current_pos.y ++ ")")
  else
    match board.get_field_state target_pos with
    | none => Except.error "ValueError: position is outside grid bounds"
    | some target_state =>
      if target_state ≠ FieldState.DRY then
        Except.ok (false, "Target position (" ++ toString target_pos.x ++ ", " ++
          toString target_pos.y ++
          ") is flooded - adventurer can only move to dry fields")
      else
        Except.ok (true, "")

/-- Per-position loop of `validate_weather_flood`: bounds, then DRY,
then not-the-adventurer, in source order. -/
def flood_scan (board : Board) (adventurer_pos : Position) :
    List Position → Except String (Bool × String)
  | [] => Except.ok (true, "")
  | p :: rest =>
    if board.is_valid_position p = false then
      Except.ok (false, "Position (" ++ toString p.x ++ ", " ++ toString p.y ++
        ") is outside grid bounds")
    else
      match board.get_field_state p with
      | none => Except.error "ValueError: position is outside grid bounds"
      | some field_state =>
        if field_state ≠ FieldState.DRY then
          Except.ok (false, "Position (" ++ toString p.x ++ ", " ++ toString p.y ++
            ") is already flooded - can only flood dry fields")
        else if p = adventurer_pos then
          Except.ok (false, "Cannot flood position (" ++ toString p.x ++ ", " ++
            toString p.y ++ ") - adventurer is currently there")
        else
          flood_scan board adventurer_pos rest

/-- Validator `validate_weather_flood` (`game/validator.py`): rejects a
request longer than `max_flood_count`, then checks each position in
order against the same unmodified board. -/
def validate_weather_flood (board : Board) (positions : List Position)
    (adventurer_pos : Position) (max_flood_count : Nat) :
    Except String (Bool × String) :=
  if positions.length > max_flood_count then
    Except.ok (false, "Weather can only flood up to " ++ toString max_flood_count ++
      " fields per turn, got " ++ toString positions.length)
  else
    flood_scan board adventurer_pos positions

/-- Loop body of `is_adventurer_trapped`: scans the adjacent positions,
returning `false` at the first DRY field. -/
def trapped_scan (board : Board) : List Position → Except String Bool
  | [] => Except.ok true
  | p :: rest =>
    match board.get_field_state p with
    | none => Except.error "ValueError: position is outside grid bounds"
    | some s => if s = FieldState.DRY then Except.ok false else trapped_scan board rest

/-- Trap detection `is_adventurer_trapped` (`game/validator.py`): true iff
none of the up-to-8 adjacent fields is DRY. -/
def is_adventurer_trapped (board : Board) (adventurer_pos : Position) :
    Except String Bool :=
  trapped_scan board (board.get_adjacent_positions adventurer_pos true)

/-- Validator `validate_grid_dimensions` (`game/validator.py`). -/
def validate_grid_dimensions (width height : Nat) : Bool × String :=
  if ¬ (3 ≤ width ∧ width ≤ 10) then
    (false, "Grid width must be between 3 and 10 (inclusive), got " ++ toString width)
  else if ¬ (3 ≤ height ∧ height ≤ 10) then
    (false, "Grid height must be between 3 and 10 (inclusive), got " ++ toString height)
  else
    (true, "")

/-- Adventurer victory check `check_adventurer_victory`
(`game/win_checker.py`): survived 365 turns. -/
def check_adventurer_victory (current_turn : Nat) : Bool :=
  decide (current_turn ≥ 365)

/-- Weather victory check `check_weather_victory` (`game/win_checker.py`). -/
def check_weather_victory (board : Board) (adventurer_pos : Position) :
    Except String Bool :=
  is_adventurer_trapped board adventurer_pos

/-- Statistics record built by `calculate_statistics` (`game/win_checker.py`). -/
structure GameStats where
  days_survived : Nat
  fields_flooded : Nat
  fields_dry : Nat
  total_fields : Nat
deriving DecidableEq, Repr

/-- Statistics computation `calculate_statistics`: one scan over every
cell, counting FLOODED cells and the rest as dry; `total_fields` comes
from the declared dimensions. -/
def calculate_statistics (board : Board) (current_turn : Nat) : GameStats :=
  { days_survived := current_turn
  , fields_flooded :=
      (board.grid.map (fun row => row.countP (fun s => s == FieldState.FLOODED))).sum
  , fields_dry :=
      (board.grid.map (fun row => row.countP (fun s => !(s == FieldState.FLOODED)))).sum
  , total_fields := board.grid_width * board.grid_height }

/-- Outcome evaluator `check_win_condition` (`game/win_checker.py`):
always computes statistics; the adventurer wins only after an adventurer
turn with 365 turns survived, the weather wins only after a weather turn
with the adventurer trapped.  Python's short-circuit `and` evaluates
`check_weather_victory` only when the acting role is the weather. -/
def check_win_condition (board : Board) (adventurer_pos : Position)
    (current_turn : Nat) (current_role : PlayerRole) :
    Except String (Option PlayerRole × GameStats) :=
  let statistics := calculate_statistics board current_turn
  let winner₁ : Option PlayerRole :=
    if current_role = PlayerRole.adventurer ∧ check_adventurer_victory current_turn
    then some PlayerRole.adventurer else none
  if current_role = PlayerRole.weather then
    match check_weather_victory board adventurer_pos with
    | Except.error e => Except.error e
    | Except.ok trapped =>
      Except.ok ((if trapped then some PlayerRole.weather else winner₁), statistics)
  else
    Except.ok (winner₁, statistics)

/-- Room state (`models/game.py`, `GameRoom`); the websocket router's
`grid_size` / `journeyman_position` fields correspond to
`grid_width`/`grid_height` / `adventurer_position` here.  The per-role
"slot filled" map `players` is split into its two entries. -/
structure GameRoom where
  room_id : String
  grid_width : Option Nat
  grid_height : Option Nat
  grid : Option (List (List FieldState))
  adventurer_position : Option Position
  current_turn : Nat
  current_role : PlayerRole
  players_adventurer : Bool
  players_weather : Bool
  game_status : GameStatus
  winner : Option PlayerRole
  created_at : Int
  ended_at : Option Int
  max_flood_count : Nat
deriving DecidableEq, Repr

/-- Lookup in the room's `players` slot map. -/
def GameRoom.players_get (room : GameRoom) : PlayerRole → Bool
  | PlayerRole.adventurer => room.players_adventurer
  | PlayerRole.weather => room.players_weather

/-- Update of the room's `players` slot map. -/
def GameRoom.players_set (room : GameRoom) : PlayerRole → Bool → GameRoom
  | PlayerRole.adventurer, v => { room with players_adventurer := v }
  | PlayerRole.weather, v => { room with players_weather := v }

/-- Display name of a role, as interpolated into error messages. -/
def role_name : PlayerRole → String
  | PlayerRole.adventurer => "adventurer"
  | PlayerRole.weather => "weather"

/-- Effect of one handled message, as seen by the clients: an `error`
reply to the sender only, or a broadcast (room state, reconnection
notice, or game over). -/
inductive MsgOutcome where
  | error (message : String)
  | broadcast_state
  | broadcast_reconnected (role : PlayerRole)
  | game_over (winner : PlayerRole)
deriving DecidableEq, Repr

/-- Result of handling one message: the room afterwards, the sending
connection's role afterwards, and the visible outcome. -/
structure HandlerResult where
  room : GameRoom
  conn_role : Option PlayerRole
  outcome : MsgOutcome
deriving DecidableEq, Repr

/-- Release step inside `select_role`: a connection already holding a
different role frees that slot before taking the new one. -/
def release_old_role (room : GameRoom) (conn_role : Option PlayerRole)
    (selected_role : PlayerRole) : GameRoom :=
  match conn_role with
  | some r => if r ≠ selected_role then room.players_set r false else room
  | none => room

/-- Handler of `select_role` (`routers/websocket.py`, message loop): a
taken slot is rejected unconditionally; otherwise any different role the
connection held is released, the requested slot is marked filled and
bound to the connection, WAITING becomes CONFIGURING once both slots are
filled, and joining an ACTIVE room broadcasts a reconnection notice. -/
def handle_select_role (room : GameRoom) (conn_role : Option PlayerRole)
    (selected_role : PlayerRole) : HandlerResult :=
  if room.players_get selected_role then
    ⟨room, conn_role,
      MsgOutcome.error ("Role " ++ role_name selected_role ++ " is already taken")⟩
  else
    let room₁ := release_old_role room conn_role selected_role
    let room₂ := room₁.players_set selected_role true
    let is_reconnection := room₂.game_status = GameStatus.active
    let room₃ :=
      if room₂.players_get PlayerRole.adventurer ∧ room₂.players_get PlayerRole.weather
         ∧ room₂.game_status = GameStatus.waiting
      then { room₂ with game_status := GameStatus.configuring }
      else room₂
    ⟨room₃, some selected_role,
      if is_reconnection then MsgOutcome.broadcast_reconnected selected_role
      else MsgOutcome.broadcast_state⟩

/-- Handler of `configure_grid` (`routers/websocket.py`): requires a
bound mover role and CONFIGURING status, validates the dimensions,
builds a fresh all-DRY board, places the mover at (0,0) and activates
the room on turn 1 with the mover acting. -/
def handle_configure_grid (room : GameRoom) (conn_role : Option PlayerRole)
    (width height mfc : Nat) : HandlerResult :=
  match conn_role with
  | none =>
    ⟨room, conn_role,
      MsgOutcome.error "You must select a role before configuring the grid"⟩
  | some player_role =>
    if player_role ≠ PlayerRole.adventurer then
      ⟨room, conn_role,
        MsgOutcome.error "Only the journeyman player can configure the grid"⟩
    else if room.game_status ≠ GameStatus.configuring then
      ⟨room, conn_role,
        MsgOutcome.error "Room must be in configuring state to set grid size"⟩
    else
      match validate_grid_dimensions width height with
      | (false, msg) => ⟨room, conn_role, MsgOutcome.error msg⟩
      | (true, _) =>
        match Board.mk? width height with
        | none => ⟨room, conn_role, MsgOutcome.error "Internal server error"⟩
        | some board =>
          ⟨{ room with
              grid_width := some width
              grid_height := some height
              grid := some board.grid
              adventurer_position := some ⟨0, 0⟩
              game_status := GameStatus.active
              current_role := PlayerRole.adventurer
              current_turn := 1
              max_flood_count := mfc },
            conn_role, MsgOutcome.broadcast_state⟩

/-- Drying loop after a move: every 4-directionally adjacent FLOODED
field is set back to DRY. -/
def dry_adjacent (board : Board) : List Position → Board
  | [] => board
  | p :: rest =>
    if board.get_field_state p = some FieldState.FLOODED then
      dry_adjacent (board.set_field_state p FieldState.DRY) rest
    else
      dry_adjacent board rest

/-- Flooding loop of the `flood` handler: each validated position is set
to FLOODED. -/
def flood_apply (board : Board) : List Position → Board
  | [] => board
  | p :: rest => flood_apply (board.set_field_state p FieldState.FLOODED) rest

/-- Handler of `move` (`routers/websocket.py`): role, status and turn
guards, validation, then position update, drying of the 4-neighbours,
turn handover to the weather and win-condition evaluation. -/
def handle_move (room : GameRoom) (conn_role : Option PlayerRole)
    (target_pos : Position) (now : Int) : HandlerResult :=
  match conn_role with
  | none =>
    ⟨room, conn_role, MsgOutcome.error "You must select a role before making a move"⟩
  | some player_role =>
    if player_role ≠ PlayerRole.adventurer then
      ⟨room, conn_role, MsgOutcome.error "Only the journeyman player can make moves"⟩
    else if room.game_status ≠ GameStatus.active then
      ⟨room, conn_role, MsgOutcome.error "Game must be active to make moves"⟩
    else if room.current_role ≠ PlayerRole.adventurer then
      ⟨room, conn_role, MsgOutcome.error "It's not your turn"⟩
    else
      match room.grid_width, room.grid_height, room.grid, room.adventurer_position with
      | some w, some h, some g, some current_pos =>
        match Board.mk? w h with
        | none => ⟨room, conn_role, MsgOutcome.error "Internal server error"⟩
        | some board₀ =>
          let board := { board₀ with grid := g }
          match validate_adventurer_move board current_pos target_pos with
          | Except.error _ => ⟨room, conn_role, MsgOutcome.error "Internal server error"⟩
          | Except.ok (false, msg) => ⟨room, conn_role, MsgOutcome.error msg⟩
          | Except.ok (true, _) =>
            let board' := dry_adjacent board (board.get_adjacent_positions target_pos false)
            let room₁ := { room with
              adventurer_position := some target_pos
              grid := some board'.grid
              current_role := PlayerRole.weather }
            match check_win_condition board' target_pos room.current_turn
                PlayerRole.adventurer with
            | Except.error _ => ⟨room₁, conn_role, MsgOutcome.error "Internal server error"⟩
            | Except.ok (some winner, _) =>
              ⟨{ room₁ with
                  game_status := GameStatus.ended
                  winner := some winner
                  ended_at := some now },
                conn_role, MsgOutcome.game_over winner⟩
            | Except.ok (none, _) => ⟨room₁, conn_role, MsgOutcome.broadcast_state⟩
      | _, _, _, _ => ⟨room, conn_role, MsgOutcome.error "Internal server error"⟩

/-- Handler of `flood` (`routers/websocket.py`): role, status and turn
guards, validation against the room's `max_flood_count`, then each
position is flooded, the turn counter is incremented, the acting role
returns to the mover, and the win condition is evaluated with the
weather as the role that just acted. -/
def handle_flood (room : GameRoom) (conn_role : Option PlayerRole)
    (positions : List Position) (now : Int) : HandlerResult :=
  match conn_role with
  | none =>
    ⟨room, conn_role,
      MsgOutcome.error "You must select a role before flooding fields"⟩
  | some player_role =>
    if player_role ≠ PlayerRole.weather then
      ⟨room, conn_role, MsgOutcome.error "Only the weather player can flood fields"⟩
    else if room.game_status ≠ GameStatus.active then
      ⟨room, conn_role, MsgOutcome.error "Game must be active to flood fields"⟩
    else if room.current_role ≠ PlayerRole.weather then
      ⟨room, conn_role, MsgOutcome.error "It's not your turn"⟩
    else
      match room.grid_width, room.grid_height, room.grid, room.adventurer_position with
      | some w, some h, some g, some adventurer_pos =>
        match Board.mk? w h with
        | none => ⟨room, conn_role, MsgOutcome.error "Internal server error"⟩
        | some board₀ =>
          let board := { board₀ with grid := g }
          match validate_weather_flood board positions adventurer_pos
              room.max_flood_count with
          | Except.error _ => ⟨room, conn_role, MsgOutcome.error "Internal server error"⟩
          | Except.ok (false, msg) => ⟨room, conn_role, MsgOutcome.error msg⟩
          | Except.ok (true, _) =>
            let board' := flood_apply board positions
            let room₁ := { room with
              grid := some board'.grid
              current_turn := room.current_turn + 1
              current_role := PlayerRole.adventurer }
            match check_win_condition board' adventurer_pos (room.current_turn + 1)
                PlayerRole.weather with
            | Except.error _ => ⟨room₁, conn_role, MsgOutcome.error "Internal server error"⟩
            | Except.ok (some winner, _) =>
              ⟨{ room₁ with
                  game_status := GameStatus.ended
                  winner := some winner
                  ended_at := some now },
                conn_role, MsgOutcome.game_over winner⟩
            | Except.ok (none, _) => ⟨room₁, conn_role, MsgOutcome.broadcast_state⟩
      | _, _, _, _ => ⟨room, conn_role, MsgOutcome.error "Internal server error"⟩

/-- Disconnect path (`routers/websocket.py`, `finally` block): a
connection that held a role releases that slot; the room status is
never touched. -/
def handle_disconnect (room : GameRoom) (conn_role : Option PlayerRole) : HandlerResult :=
  match conn_role with
  | some player_role =>
    ⟨room.players_set player_role false, none, MsgOutcome.broadcast_state⟩
  | none => ⟨room, none, MsgOutcome.broadcast_state⟩

/-- Client events driving one room, as the message loop dispatches them
(`routers/websocket.py`); `disconnect` is the teardown path and
`unknown` any message with an unrecognised type. -/
inductive ClientMsg where
  | select_role (role : PlayerRole)
  | configure_grid (width height mfc : Nat)
  | move (target : Position)
  | flood (positions : List Position)
  | disconnect
  | unknown
deriving DecidableEq, Repr

/-- Dispatch of one event to its handler. -/
def handle_message (room : GameRoom) (conn_role : Option PlayerRole) (now : Int) :
    ClientMsg → HandlerResult
  | ClientMsg.select_role r => handle_select_role room conn_role r
  | ClientMsg.configure_grid w h m => handle_configure_grid room conn_role w h m
  | ClientMsg.move p => handle_move room conn_role p now
  | ClientMsg.flood ps => handle_flood room conn_role ps now
  | ClientMsg.disconnect => handle_disconnect room conn_role
  | ClientMsg.unknown => ⟨room, conn_role, MsgOutcome.error "Unknown message type"⟩

/-- One interleaved event: the sending connection's current role, the
wall-clock instant, and the message. -/
structure RoomEvent where
  conn_role : Option PlayerRole
  now : Int
  msg : ClientMsg
deriving DecidableEq, Repr

/-- Room state after a whole sequence of handled events. -/
def run_messages (room : GameRoom) (events : List RoomEvent) : GameRoom :=
  events.foldl (fun r ev => (handle_message r ev.conn_role ev.now ev.msg).room) room

/-- Numeric rank of a status along WAITING → CONFIGURING → ACTIVE → ENDED. -/
def status_rank : GameStatus → Nat
  | GameStatus.waiting => 0
  | GameStatus.configuring => 1
  | GameStatus.active => 2
  | GameStatus.ended => 3

/-- Cleanup predicate of `RoomManager.cleanup_old_rooms`
(`game/room_manager.py`): a room is deleted when it has ended and
`now - ended_at ≥ CLEANUP_THRESHOLD_SECONDS` (300). -/
def should_delete (now : Int) (room : GameRoom) : Bool :=
  match room.ended_at with
  | some e => decide (300 ≤ now - e)
  | none => false

/-- Sweep `RoomManager.cleanup_old_rooms`: collects the ids of rooms past
the threshold, deletes them from the store, and returns the count. -/
def cleanup_old_rooms (now : Int) (rooms : List (String × GameRoom)) :
    Nat × List (String × GameRoom) :=
  let rooms_to_delete := rooms.filter (fun kv => should_delete now kv.2)
  (rooms_to_delete.length, rooms.filter (fun kv => ! should_delete now kv.2))

/-! ## Helper lemmas -/

theorem length_filter_add_length_filter_not {α} (p : α → Bool) (l : List α) :
    (l.filter p).length + (l.filter (fun a => ! p a)).length = l.length := by
  induction l with
  | nil => rfl
  | cons a l ih =>
    by_cases h : p a = true
    · simp only [List.filter_cons, h, Bool.not_true, if_pos, List.length_cons,
        Bool.false_eq_true, if_false, ite_false, ite_true]
      omega
    · simp only [Bool.not_eq_true] at h
      simp only [List.filter_cons, h, Bool.not_false, List.length_cons,
        Bool.false_eq_true, if_false, ite_false, ite_true]
      omega

theorem should_delete_eq_true_iff (now : Int) (r : GameRoom) :
    should_delete now r = true ↔ ∃ e, r.ended_at = some e ∧ 300 ≤ now - e := by
  unfold should_delete
  cases h : r.ended_at with
  | none => simp
  | some e => simp

/-- A sample fully-defaulted room, used to build concrete rooms below. -/
def base_room : GameRoom :=
  { room_id := "ROOM01"
  , grid_width := none
  , grid_height := none
  , grid := none
  , adventurer_position := none
  , current_turn := 1
  , current_role := PlayerRole.adventurer
  , players_adventurer := false
  , players_weather := false
  , game_status := GameStatus.waiting
  , winner := none
  , created_at := 0
  , ended_at := none
  , max_flood_count := 2 }

/-- An ended room whose end timestamp lies exactly 300 seconds before the
sweep instant 1000 used in the C8 counterexample. -/
def room_ended_exactly_300 : GameRoom :=
  { base_room with
      game_status := GameStatus.ended
      winner := some PlayerRole.weather
      ended_at := some 700 }

/-! ## Claim C6 — board construction -/

/-- C6: `Board.__init__` succeeds exactly for widths and heights in
`[3,10]`, yielding an all-DRY `width × height` grid; outside that range
(in particular width 2 or height 11) it fails with the dimension
`ValueError`. -/
theorem claim_C6_board_construction : ∀ w h : Nat,
    ((3 ≤ w ∧ w ≤ 10 ∧ 3 ≤ h ∧ h ≤ 10) →
      ∃ b, Board.mk? w h = some b ∧ b.grid_width = w ∧ b.grid_height = h ∧
        b.grid.length = h ∧ (∀ row ∈ b.grid, row.length = w) ∧
        (∀ row ∈ b.grid, ∀ s ∈ row, s = FieldState.DRY)) ∧
    (¬ (3 ≤ w ∧ w ≤ 10 ∧ 3 ≤ h ∧ h ≤ 10) → Board.mk? w h = none) ∧
    Board.mk? 2 5 = none ∧ Board.mk? 5 11 = none := by
  intro w h
  refine ⟨?_, ?_, by decide, by decide⟩
  · intro hr
    have e : Board.mk? w h =
        some ⟨w, h, List.replicate h (List.replicate w FieldState.DRY)⟩ := by
      unfold Board.mk?
      rw [if_neg (by omega), if_neg (by omega)]
    refine ⟨_, e, rfl, rfl, by simp, ?_, ?_⟩
    · intro row hrow
      rw [List.eq_of_mem_replicate hrow]
      simp
    · intro row hrow s hs
      rw [List.eq_of_mem_replicate hrow] at hs
      exact List.eq_of_mem_replicate hs
  · intro hn
    unfold Board.mk?
    split
    · rfl
    · rename_i hc1
      split
      · rfl
      · rename_i hc2
        exact absurd (by omega) hn

/-- Witness for C6 at width 5, height 7 (and the mandated failures). -/
theorem claim_C6_board_construction_witness :
    Board.mk? 2 5 = none ∧ (Board.mk? 5 7).isSome = true := by
  constructor
  · exact (claim_C6_board_construction 2 5).2.1 (by decide)
  · obtain ⟨b, hb, -⟩ := (claim_C6_board_construction 5 7).1 (by decide)
    rw [hb]
    rfl

/-! ## Claim C8 — room cleanup sweep -/

/-- C8 counterexample: a room that ended exactly 300 seconds before the
sweep is removed by `cleanup_old_rooms` (the code compares with `>=`),
although it does not lie more than 300 seconds in the past as the claim
states. -/
theorem claim_C8_counterexample :
    cleanup_old_rooms 1000 [("ROOM01", room_ended_exactly_300)] = (1, []) ∧
    room_ended_exactly_300.ended_at = some 700 ∧
    ¬ ((1000 : Int) - 700 > 300) := by
  refine ⟨by decide, rfl, by decide⟩

/-- C8 amended: `cleanup_old_rooms` removes exactly those rooms whose
`ended_at` is set and lies at least 300 seconds (≥ 300, not > 300) in
the past; rooms that have not ended are never removed, and the returned
count is the number of rooms removed. -/
theorem claim_C8_amended_cleanup : ∀ (now : Int) (rooms : List (String × GameRoom)),
    (∀ i r, ((i, r) ∈ (cleanup_old_rooms now rooms).2 ↔
      ((i, r) ∈ rooms ∧ ¬ ∃ e, r.ended_at = some e ∧ 300 ≤ now - e))) ∧
    (∀ i r, (i, r) ∈ rooms → r.ended_at = none →
      (i, r) ∈ (cleanup_old_rooms now rooms).2) ∧
    (cleanup_old_rooms now rooms).1 + (cleanup_old_rooms now rooms).2.length
      = rooms.length := by
  intro now rooms
  have hmem : ∀ i r, ((i, r) ∈ (cleanup_old_rooms now rooms).2 ↔
      ((i, r) ∈ rooms ∧ ¬ ∃ e, r.ended_at = some e ∧ 300 ≤ now - e)) := by
    intro i r
    unfold cleanup_old_rooms
    simp only [List.mem_filter, Bool.not_eq_true']
    rw [← should_delete_eq_true_iff now r]
    simp
  refine ⟨hmem, ?_, ?_⟩
  · intro i r hin hend
    rw [hmem i r]
    refine ⟨hin, ?_⟩
    rintro ⟨e, he, -⟩
    rw [hend] at he
    exact Option.noConfusion he
  · unfold cleanup_old_rooms
    exact length_filter_add_length_filter_not _ rooms

/-- Witness for C8 amended: a not-yet-ended room survives a sweep and the
count bookkeeping holds on a concrete store. -/
theorem claim_C8_amended_cleanup_witness :
    ("ROOM01", base_room) ∈ (cleanup_old_rooms 1000 [("ROOM01", base_room)]).2 ∧
    (cleanup_old_rooms 1000 [("ROOM01", base_room)]).1 +
      (cleanup_old_rooms 1000 [("ROOM01", base_room)]).2.length = 1 := by
  constructor
  · exact (claim_C8_amended_cleanup 1000 [("ROOM01", base_room)]).2.1
      "ROOM01" base_room (by simp) rfl
  · exact (claim_C8_amended_cleanup 1000 [("ROOM01", base_room)]).2.2

/-! ## Adjacency lemmas -/

/-- Specification-side 8-adjacency (Chebyshev distance 1): each
coordinate differs by at most one and the two positions differ. -/
def is_adjacent8 (p q : Position) : Bool :=
  ((q.x == p.x + 1) || (q.x + 1 == p.x) || (q.x == p.x)) &&
  ((q.y == p.y + 1) || (q.y + 1 == p.y) || (q.y == p.y)) &&
  (!((q.x == p.x) && (q.y == p.y)))

theorem filterMap_length_of_isSome {α β} (f : α → Option β) :
    ∀ l : List α, (∀ a ∈ l, (f a).isSome = true) → (l.filterMap f).length = l.length := by
  intro l
  induction l with
  | nil => intro _; rfl
  | cons a l ih =>
    intro h
    rw [List.filterMap_cons]
    cases hf : f a with
    | none =>
      have := h a (by simp)
      rw [hf] at this
      exact absurd this (by simp)
    | some b =>
      simp only [List.length_cons]
      rw [ih (fun x hx => h x (by simp [hx]))]

theorem mem_adjacent_is_valid (b : Board) (p : Position) (diag : Bool) (q : Position)
    (h : q ∈ b.get_adjacent_positions p diag) : b.is_valid_position q = true := by
  unfold Board.get_adjacent_positions at h
  rcases List.mem_filterMap.mp h with ⟨d, _, hf⟩
  dsimp only at hf
  split at hf
  · rename_i hguard
    injection hf with hq
    subst hq
    simp only [Board.is_valid_position, Bool.and_eq_true, decide_eq_true_eq]
    constructor <;> omega
  · exact Option.noConfusion hf

theorem mem_adjacent8_iff (b : Board) (p q : Position) :
    q ∈ b.get_adjacent_positions p true ↔
      (b.is_valid_position q = true ∧ is_adjacent8 p q = true) := by
  obtain ⟨qx, qy⟩ := q
  constructor
  · intro h
    refine ⟨mem_adjacent_is_valid b p true ⟨qx, qy⟩ h, ?_⟩
    unfold Board.get_adjacent_positions at h
    rcases List.mem_filterMap.mp h with ⟨d, hd, hf⟩
    simp only [if_true] at hd
    simp only [directions8, List.mem_cons, List.not_mem_nil, or_false] at hd
    rcases hd with rfl | rfl | rfl | rfl | rfl | rfl | rfl | rfl <;>
      (dsimp only at hf
       split at hf
       · rename_i hguard
         injection hf with hq
         rw [← hq]
         simp only [is_adjacent8, Bool.and_eq_true, Bool.or_eq_true, beq_iff_eq,
           Bool.not_eq_true', Bool.and_eq_false_iff, beq_eq_false_iff_ne, ne_eq]
         refine ⟨⟨?_, ?_⟩, ?_⟩ <;> omega
       · exact Option.noConfusion hf)
  · rintro ⟨hval, hadj⟩
    simp only [Board.is_valid_position, Bool.and_eq_true, decide_eq_true_eq] at hval
    simp only [is_adjacent8, Bool.and_eq_true, Bool.or_eq_true, beq_iff_eq,
      Bool.not_eq_true', Bool.and_eq_false_iff, beq_eq_false_iff_ne, ne_eq] at hadj
    unfold Board.get_adjacent_positions
    apply List.mem_filterMap.mpr
    obtain ⟨⟨hx, hy⟩, hne⟩ := hadj
    rcases hx with (hx | hx) | hx <;> rcases hy with (hy | hy) | hy
    · exact ⟨(1, 1), by simp [directions8], by
        dsimp only
        rw [if_pos (by constructor <;> omega)]
        simp only [Option.some.injEq, Position.mk.injEq]
        constructor <;> omega⟩
    · exact ⟨(1, -1), by simp [directions8], by
        dsimp only
        rw [if_pos (by constructor <;> omega)]
        simp only [Option.some.injEq, Position.mk.injEq]
        constructor <;> omega⟩
    · exact ⟨(1, 0), by simp [directions8], by
        dsimp only
        rw [if_pos (by constructor <;> omega)]
        simp only [Option.some.injEq, Position.mk.injEq]
        constructor <;> omega⟩
    · exact ⟨(-1, 1), by simp [directions8], by
        dsimp only
        rw [if_pos (by constructor <;> omega)]
        simp only [Option.some.injEq, Position.mk.injEq]
        constructor <;> omega⟩
    · exact ⟨(-1, -1), by simp [directions8], by
        dsimp only
        rw [if_pos (by constructor <;> omega)]
        simp only [Option.some.injEq, Position.mk.injEq]
        constructor <;> omega⟩
    · exact ⟨(-1, 0), by simp [directions8], by
        dsimp only
        rw [if_pos (by constructor <;> omega)]
        simp only [Option.some.injEq, Position.mk.injEq]
        constructor <;> omega⟩
    · exact ⟨(0, 1), by simp [directions8], by
        dsimp only
        rw [if_pos (by constructor <;> omega)]
        simp only [Option.some.injEq, Position.mk.injEq]
        constructor <;> omega⟩
    · exact ⟨(0, -1), by simp [directions8], by
        dsimp only
        rw [if_pos (by constructor <;> omega)]
        simp only [Option.some.injEq, Position.mk.injEq]
        constructor <;> omega⟩
    · exfalso
      rcases hne with h | h <;> omega

/-- A concrete 3×3 all-DRY board. -/
def board3x3 : Board :=
  ⟨3, 3, List.replicate 3 (List.replicate 3 FieldState.DRY)⟩

/-- A concrete 5×5 all-DRY board. -/
def board5x5 : Board :=
  ⟨5, 5, List.replicate 5 (List.replicate 5 FieldState.DRY)⟩

/-! ## Claim C7 — adjacency computation -/

/-- C7: `get_adjacent_positions` returns only in-bounds positions; with
diagonals an interior cell has exactly 8 neighbours; the corner (0,0) of
a 3×3 board has exactly 3 with diagonals and exactly 2 without. -/
theorem claim_C7_adjacent_positions :
    (∀ (b : Board) (p : Position) (diag : Bool) (q : Position),
        q ∈ b.get_adjacent_positions p diag → b.is_valid_position q = true) ∧
    (∀ (b : Board) (p : Position), 0 < p.x → p.x + 1 < b.grid_width →
        0 < p.y → p.y + 1 < b.grid_height →
        (b.get_adjacent_positions p true).length = 8) ∧
    (board3x3.get_adjacent_positions ⟨0, 0⟩ true).length = 3 ∧
    (board3x3.get_adjacent_positions ⟨0, 0⟩ false).length = 2 := by
  refine ⟨mem_adjacent_is_valid, ?_, by decide, by decide⟩
  intro b p hx0 hxw hy0 hyh
  unfold Board.get_adjacent_positions
  simp only [if_true]
  refine Eq.trans (filterMap_length_of_isSome _ _ ?_) (by decide)
  intro d hd
  simp only [directions8, List.mem_cons, List.not_mem_nil, or_false] at hd
  rcases hd with rfl | rfl | rfl | rfl | rfl | rfl | rfl | rfl <;>
    (dsimp only
     rw [if_pos (by refine ⟨by omega, by omega, by omega, by omega⟩)]
     rfl)

/-- Witness for C7: interior cell (2,2) of a 5×5 board has 8 neighbours,
and a sample neighbour of (2,2) is in bounds. -/
theorem claim_C7_adjacent_positions_witness :
    (board5x5.get_adjacent_positions ⟨2, 2⟩ true).length = 8 ∧
    board5x5.is_valid_position ⟨1, 1⟩ = true := by
  constructor
  · exact claim_C7_adjacent_positions.2.1 board5x5 ⟨2, 2⟩ (by decide) (by decide)
      (by decide) (by decide)
  · exact claim_C7_adjacent_positions.1 board5x5 ⟨2, 2⟩ true ⟨1, 1⟩ (by decide)

/-! ## Field access under the board invariant -/

theorem get_field_state_isSome_of_wf (b : Board) (hwf : b.wf) (p : Position)
    (hv : b.is_valid_position p = true) : ∃ s, b.get_field_state p = some s := by
  obtain ⟨hlen, hrows⟩ := hwf
  have hv' := hv
  simp only [Board.is_valid_position, Bool.and_eq_true, decide_eq_true_eq] at hv'
  have hy : p.y < b.grid.length := by omega
  have hrow : b.grid[p.y]? = some b.grid[p.y] := List.getElem?_eq_getElem hy
  have hx : p.x < (b.grid[p.y]).length := by
    rw [hrows _ (List.getElem_mem hy)]
    omega
  refine ⟨b.grid[p.y][p.x], ?_⟩
  unfold Board.get_field_state
  rw [if_pos hv, hrow]
  exact List.getElem?_eq_getElem hx

theorem get_field_state_some_valid (b : Board) (p : Position) (s : FieldState)
    (h : b.get_field_state p = some s) : b.is_valid_position p = true := by
  unfold Board.get_field_state at h
  by_cases hv : b.is_valid_position p = true
  · exact hv
  · rw [if_neg hv] at h
    exact Option.noConfusion h

/-- On a board satisfying the invariant, `validate_adventurer_move`
always returns a result (never the exception branch), and every failure
carries a nonempty reason. -/
theorem validate_adventurer_move_total (board : Board) (current_pos target_pos : Position)
    (hwf : board.wf) : ∃ valid msg,
      validate_adventurer_move board current_pos target_pos
        = Except.ok (valid, msg) ∧ (valid = false → msg ≠ "") := by
  unfold validate_adventurer_move
  by_cases hv : board.is_valid_position target_pos = false
  · rw [if_pos hv]
    refine ⟨false, _, rfl, fun _ => ?_⟩
    intro he
    have hlen := congrArg String.length he
    simp only [String.length_append] at hlen
    have h17 : ("Target position (" : String).length = 17 := by decide
    have h0 : ("" : String).length = 0 := by decide
    omega
  · rw [if_neg hv]
    have hv' : board.is_valid_position target_pos = true := by
      revert hv
      cases board.is_valid_position target_pos <;> simp
    by_cases hm : target_pos ∈ board.get_adjacent_positions current_pos true
    · rw [if_neg (by simpa using hm)]
      obtain ⟨s, hg⟩ := get_field_state_isSome_of_wf board hwf target_pos hv'
      rw [hg]
      by_cases hst : s = FieldState.DRY
      · subst hst
        dsimp only
        rw [if_neg (by simp)]
        exact ⟨true, "", rfl, by simp⟩
      · dsimp only
        rw [if_pos (by simpa using hst)]
        refine ⟨false, _, rfl, fun _ => ?_⟩
        intro he
        have hlen := congrArg String.length he
        simp only [String.length_append] at hlen
        have h17 : ("Target position (" : String).length = 17 := by decide
        have h0 : ("" : String).length = 0 := by decide
        omega
    · rw [if_pos (by simpa using hm)]
      refine ⟨false, _, rfl, fun _ => ?_⟩
      intro he
      have hlen := congrArg String.length he
      simp only [String.length_append] at hlen
      have h17 : ("Target position (" : String).length = 17 := by decide
      have h0 : ("" : String).length = 0 := by decide
      omega

/-! ## Claim C4 — move validation -/

/-- C4: `validate_adventurer_move` accepts exactly when the target is
in-bounds, 8-adjacent to the current position, and DRY; under the board
invariant it returns a `(false, reason)` result with a nonempty reason
instead of raising; re-validation against the unchanged board is
deterministic. -/
theorem claim_C4_validate_adventurer_move :
    ∀ (board : Board) (current_pos target_pos : Position),
      ((∃ s, validate_adventurer_move board current_pos target_pos
          = Except.ok (true, s)) ↔
        (board.is_valid_position target_pos = true ∧
         is_adjacent8 current_pos target_pos = true ∧
         board.get_field_state target_pos = some FieldState.DRY)) ∧
      (board.wf → ∃ valid msg,
        validate_adventurer_move board current_pos target_pos
          = Except.ok (valid, msg) ∧ (valid = false → msg ≠ "")) ∧
      validate_adventurer_move board current_pos target_pos
        = validate_adventurer_move board current_pos target_pos := by
  intro board current_pos target_pos
  refine ⟨?_, ?_, rfl⟩
  · unfold validate_adventurer_move
    by_cases hv : board.is_valid_position target_pos = false
    · rw [if_pos hv]
      constructor
      · rintro ⟨s, h⟩
        exact absurd (Except.ok.inj h) (by simp)
      · rintro ⟨h1, -, -⟩
        rw [h1] at hv
        exact Bool.noConfusion hv
    · rw [if_neg hv]
      have hv' : board.is_valid_position target_pos = true := by
        revert hv
        cases board.is_valid_position target_pos <;> simp
      by_cases hm : target_pos ∈ board.get_adjacent_positions current_pos true
      · rw [if_neg (by simpa using hm)]
        cases hg : board.get_field_state target_pos with
        | none =>
          constructor
          · rintro ⟨s, h⟩
            exact Except.noConfusion h
          · rintro ⟨-, -, h3⟩
            exact Option.noConfusion h3
        | some st =>
          by_cases hst : st = FieldState.DRY
          · subst hst
            dsimp only
            rw [if_neg (by simp)]
            constructor
            · intro _
              exact ⟨hv', ((mem_adjacent8_iff board current_pos target_pos).mp hm).2, rfl⟩
            · intro _
              exact ⟨"", rfl⟩
          · dsimp only
            rw [if_pos (by simpa using hst)]
            constructor
            · rintro ⟨s, h⟩
              exact absurd (Prod.mk.injEq .. ▸ Except.ok.inj h) (by simp)
            · rintro ⟨-, -, h3⟩
              exact absurd (Option.some.inj h3) hst
      · rw [if_pos (by simpa using hm)]
        constructor
        · rintro ⟨s, h⟩
          exact absurd (Except.ok.inj h) (by simp)
        · rintro ⟨h1, h2, -⟩
          exact absurd ((mem_adjacent8_iff board current_pos target_pos).mpr ⟨h1, h2⟩) hm
  · exact validate_adventurer_move_total board current_pos target_pos

/-- Witness for C4: on the all-DRY 3×3 board, the diagonal step from
(0,0) to (1,1) validates successfully, and the invariant-based totality
holds there. -/
theorem claim_C4_validate_adventurer_move_witness :
    (∃ s, validate_adventurer_move board3x3 ⟨0, 0⟩ ⟨1, 1⟩ = Except.ok (true, s)) ∧
    (∃ valid msg, validate_adventurer_move board3x3 ⟨0, 0⟩ ⟨1, 1⟩
      = Except.ok (valid, msg) ∧ (valid = false → msg ≠ "")) := by
  constructor
  · exact ((claim_C4_validate_adventurer_move board3x3 ⟨0, 0⟩ ⟨1, 1⟩).1).mpr
      ⟨by decide, by decide, by decide⟩
  · exact (claim_C4_validate_adventurer_move board3x3 ⟨0, 0⟩ ⟨1, 1⟩).2.1 (by decide)

/-! ## Claim C5 — flood validation -/

theorem flood_scan_ok_iff (b : Board) (ap : Position) :
    ∀ l : List Position,
      ((∃ s, flood_scan b ap l = Except.ok (true, s)) ↔
        ∀ p ∈ l, b.is_valid_position p = true ∧
          b.get_field_state p = some FieldState.DRY ∧ p ≠ ap) := by
  intro l
  induction l with
  | nil =>
    constructor
    · intro _ p hp
      exact absurd hp (List.not_mem_nil p)
    · intro _
      exact ⟨"", rfl⟩
  | cons p rest ih =>
    unfold flood_scan
    by_cases hv : b.is_valid_position p = false
    · rw [if_pos hv]
      constructor
      · rintro ⟨s, h⟩
        exact absurd (Except.ok.inj h) (by simp)
      · intro hall
        have := (hall p (by simp)).1
        rw [this] at hv
        exact Bool.noConfusion hv
    · rw [if_neg hv]
      have hv' : b.is_valid_position p = true := by
        revert hv
        cases b.is_valid_position p <;> simp
      cases hg : b.get_field_state p with
      | none =>
        constructor
        · rintro ⟨s, h⟩
          exact Except.noConfusion h
        · intro hall
          have := (hall p (by simp)).2.1
          rw [hg] at this
          exact Option.noConfusion this
      | some st =>
        dsimp only
        by_cases hst : st = FieldState.DRY
        · subst hst
          rw [if_neg (by simp)]
          by_cases hap : p = ap
          · rw [if_pos hap]
            constructor
            · rintro ⟨s, h⟩
              exact absurd (Except.ok.inj h) (by simp)
            · intro hall
              exact absurd hap (hall p (by simp)).2.2
          · rw [if_neg hap]
            rw [ih]
            constructor
            · intro hrest q hq
              rcases List.mem_cons.mp hq with rfl | hq'
              · exact ⟨hv', hg, hap⟩
              · exact hrest q hq'
            · intro hall q hq
              exact hall q (List.mem_cons_of_mem p hq)
        · rw [if_pos (by simpa using hst)]
          constructor
          · rintro ⟨s, h⟩
            exact absurd (Except.ok.inj h) (by simp)
          · intro hall
            have := (hall p (by simp)).2.1
            rw [hg] at this
            exact absurd (Option.some.inj this) hst

/-- C5: `validate_weather_flood` accepts exactly when the request is at
most `max_flood_count` long and every listed position (duplicates
included, each checked independently against the same unmodified board)
is in-bounds, DRY, and not the adventurer's cell; the empty request is
always accepted. -/
theorem claim_C5_validate_weather_flood :
    ∀ (board : Board) (positions : List Position) (adventurer_pos : Position)
      (max_flood_count : Nat),
      ((∃ s, validate_weather_flood board positions adventurer_pos max_flood_count
          = Except.ok (true, s)) ↔
        (positions.length ≤ max_flood_count ∧
          ∀ p ∈ positions, board.is_valid_position p = true ∧
            board.get_field_state p = some FieldState.DRY ∧ p ≠ adventurer_pos)) ∧
      validate_weather_flood board [] adventurer_pos max_flood_count
        = Except.ok (true, "") := by
  intro board positions ap mfc
  constructor
  · unfold validate_weather_flood
    by_cases hlen : positions.length > mfc
    · rw [if_pos hlen]
      constructor
      · rintro ⟨s, h⟩
        exact absurd (Except.ok.inj h) (by simp)
      · rintro ⟨h1, -⟩
        omega
    · rw [if_neg hlen]
      rw [flood_scan_ok_iff]
      constructor
      · intro hall
        exact ⟨by omega, hall⟩
      · rintro ⟨-, hall⟩
        exact hall
  · unfold validate_weather_flood
    rw [if_neg (by simp)]
    rfl

/-- Witness for C5: a singleton in-bounds DRY flood away from the
adventurer validates on the 3×3 board, and the empty request is a legal
skip there. -/
theorem claim_C5_validate_weather_flood_witness :
    (∃ s, validate_weather_flood board3x3 [⟨1, 1⟩] ⟨0, 0⟩ 2 = Except.ok (true, s)) ∧
    validate_weather_flood board3x3 [] ⟨0, 0⟩ 2 = Except.ok (true, "") := by
  constructor
  · exact ((claim_C5_validate_weather_flood board3x3 [⟨1, 1⟩] ⟨0, 0⟩ 2).1).mpr
      (by decide)
  · exact (claim_C5_validate_weather_flood board3x3 [] ⟨0, 0⟩ 2).2

/-! ## Claim C3 — win-condition evaluation -/

theorem trapped_scan_ok (b : Board) :
    ∀ l : List Position, (∀ p ∈ l, ∃ s, b.get_field_state p = some s) →
      ∃ t, trapped_scan b l = Except.ok t ∧
        (t = true ↔ ∀ p ∈ l, b.get_field_state p ≠ some FieldState.DRY) := by
  intro l
  induction l with
  | nil =>
    intro _
    exact ⟨true, rfl, by simp⟩
  | cons p rest ih =>
    intro hall
    obtain ⟨s, hs⟩ := hall p (by simp)
    unfold trapped_scan
    rw [hs]
    dsimp only
    by_cases hst : s = FieldState.DRY
    · subst hst
      rw [if_pos rfl]
      refine ⟨false, rfl, ?_⟩
      constructor
      · intro h
        exact Bool.noConfusion h
      · intro h
        exact absurd hs (h p (by simp))
    · rw [if_neg hst]
      obtain ⟨t, ht, hiff⟩ := ih (fun q hq => hall q (List.mem_cons_of_mem p hq))
      refine ⟨t, ht, ?_⟩
      rw [hiff]
      constructor
      · intro hrest q hq
        rcases List.mem_cons.mp hq with rfl | hq'
        · rw [hs]
          intro he
          exact hst (Option.some.inj he)
        · exact hrest q hq'
      · intro hcons q hq
        exact hcons q (List.mem_cons_of_mem p hq)

/-- Under the board invariant, `is_adventurer_trapped` returns normally
and its boolean is exactly "no 8-adjacent field is DRY". -/
theorem is_adventurer_trapped_spec (b : Board) (hwf : b.wf) (ap : Position) :
    ∃ t, is_adventurer_trapped b ap = Except.ok t ∧
      (t = true ↔ ∀ p ∈ b.get_adjacent_positions ap true,
        b.get_field_state p ≠ some FieldState.DRY) := by
  unfold is_adventurer_trapped
  exact trapped_scan_ok b _ (fun q hq =>
    get_field_state_isSome_of_wf b hwf q (mem_adjacent_is_valid b ap true q hq))

/-- C3: `check_win_condition` always returns the scan statistics; the
adventurer is the winner iff the acting role is the adventurer and the
turn has reached 365; the weather is the winner iff the acting role is
the weather and no 8-adjacent field of the adventurer is DRY; the two
winner checks never fire together. -/
theorem claim_C3_check_win_condition :
    ∀ (board : Board) (adventurer_pos : Position) (current_turn : Nat)
      (current_role : PlayerRole), board.wf →
      ∃ w, check_win_condition board adventurer_pos current_turn current_role
          = Except.ok (w, calculate_statistics board current_turn) ∧
        ((w = some PlayerRole.adventurer) ↔
          (current_role = PlayerRole.adventurer ∧ 365 ≤ current_turn)) ∧
        ((w = some PlayerRole.weather) ↔
          (current_role = PlayerRole.weather ∧
            ∀ p ∈ board.get_adjacent_positions adventurer_pos true,
              board.get_field_state p ≠ some FieldState.DRY)) ∧
        ¬ (w = some PlayerRole.adventurer ∧ w = some PlayerRole.weather) := by
  intro board ap turn role hwf
  cases role with
  | adventurer =>
    unfold check_win_condition
    rw [if_neg (by simp)]
    by_cases ht : check_adventurer_victory turn = true
    · rw [if_pos ⟨rfl, ht⟩]
      unfold check_adventurer_victory at ht
      refine ⟨some PlayerRole.adventurer, rfl, by simpa using ht, by simp, by simp⟩
    · rw [if_neg (by intro h; exact ht h.2)]
      unfold check_adventurer_victory at ht
      refine ⟨none, rfl, by simpa using ht, by simp, by simp⟩
  | weather =>
    obtain ⟨t, htr, hiff⟩ := is_adventurer_trapped_spec board hwf ap
    unfold check_win_condition check_weather_victory
    rw [if_pos rfl, htr]
    dsimp only
    cases t with
    | true =>
      rw [if_pos rfl]
      refine ⟨some PlayerRole.weather, rfl, by simp, ?_, by simp⟩
      simpa using hiff
    | false =>
      rw [if_neg (by simp)]
      rw [if_neg (by simp)]
      refine ⟨none, rfl, by simp, ?_, by simp⟩
      constructor
      · intro h
        exact absurd h (by simp)
      · rintro ⟨-, h⟩
        exact absurd (hiff.mpr h) (by simp)

/-- Witness for C3: a weather turn on a concrete board whose adventurer
at (0,0) has the DRY neighbour (1,1) reports no winner, with the
statistics attached. -/
theorem claim_C3_check_win_condition_witness :
    ∃ w, check_win_condition board3x3 ⟨0, 0⟩ 4 PlayerRole.weather
        = Except.ok (w, calculate_statistics board3x3 4) ∧
      ((w = some PlayerRole.adventurer) ↔
        (PlayerRole.weather = PlayerRole.adventurer ∧ 365 ≤ 4)) ∧
      ((w = some PlayerRole.weather) ↔
        (PlayerRole.weather = PlayerRole.weather ∧
          ∀ p ∈ board3x3.get_adjacent_positions ⟨0, 0⟩ true,
            board3x3.get_field_state p ≠ some FieldState.DRY)) ∧
      ¬ (w = some PlayerRole.adventurer ∧ w = some PlayerRole.weather) :=
  claim_C3_check_win_condition board3x3 ⟨0, 0⟩ 4 PlayerRole.weather (by decide)

/-! ## Claim C10 — validators never raise the out-of-bounds error -/

theorem flood_scan_isOk (b : Board) (hwf : b.wf) (ap : Position) :
    ∀ l : List Position, (flood_scan b ap l).isOk = true := by
  intro l
  induction l with
  | nil => rfl
  | cons p rest ih =>
    unfold flood_scan
    by_cases hv : b.is_valid_position p = false
    · rw [if_pos hv]
      rfl
    · rw [if_neg hv]
      have hv' : b.is_valid_position p = true := by
        revert hv
        cases b.is_valid_position p <;> simp
      obtain ⟨s, hs⟩ := get_field_state_isSome_of_wf b hwf p hv'
      rw [hs]
      dsimp only
      by_cases hst : s = FieldState.DRY
      · subst hst
        rw [if_neg (by simp)]
        by_cases hap : p = ap
        · rw [if_pos hap]
          rfl
        · rw [if_neg hap]
          exact ih
      · rw [if_pos (by simpa using hst)]
        rfl

/-- C10: with the board invariant, `validate_adventurer_move`,
`validate_weather_flood` and `is_adventurer_trapped` return normally for
every argument, including out-of-bounds positions: every internal
`get_field_state` call happens on an already-validated position, so the
out-of-bounds `ValueError` branch is unreachable. -/
theorem claim_C10_validators_never_raise :
    ∀ board : Board, board.wf →
      (∀ current_pos target_pos : Position,
        (validate_adventurer_move board current_pos target_pos).isOk = true) ∧
      (∀ (positions : List Position) (adventurer_pos : Position)
          (max_flood_count : Nat),
        (validate_weather_flood board positions adventurer_pos
          max_flood_count).isOk = true) ∧
      (∀ adventurer_pos : Position,
        (is_adventurer_trapped board adventurer_pos).isOk = true) := by
  intro board hwf
  refine ⟨?_, ?_, ?_⟩
  · intro cur tgt
    obtain ⟨valid, msg, h, -⟩ := validate_adventurer_move_total board cur tgt hwf
    rw [h]
    rfl
  · intro ps ap mfc
    unfold validate_weather_flood
    by_cases hlen : ps.length > mfc
    · rw [if_pos hlen]
      rfl
    · rw [if_neg hlen]
      exact flood_scan_isOk board hwf ap ps
  · intro ap
    obtain ⟨t, h, -⟩ := is_adventurer_trapped_spec board hwf ap
    rw [h]
    rfl

/-- Witness for C10: on the 3×3 board, the validators return normally
even on far out-of-bounds argument positions. -/
theorem claim_C10_validators_never_raise_witness :
    (validate_adventurer_move board3x3 ⟨0, 0⟩ ⟨9, 9⟩).isOk = true ∧
    (validate_weather_flood board3x3 [⟨7, 7⟩] ⟨0, 0⟩ 2).isOk = true ∧
    (is_adventurer_trapped board3x3 ⟨9, 9⟩).isOk = true := by
  obtain ⟨h1, h2, h3⟩ := claim_C10_validators_never_raise board3x3 (by decide)
  exact ⟨h1 ⟨0, 0⟩ ⟨9, 9⟩, h2 [⟨7, 7⟩] ⟨0, 0⟩ 2, h3 ⟨9, 9⟩⟩

/-! ## Claim C1 — role selection on a taken slot -/

/-- A CONFIGURING room in which both slots are marked taken, as when two
players selected roles and one of them then asks for a taken role. -/
def room_configuring_taken : GameRoom :=
  { base_room with
      game_status := GameStatus.configuring
      players_adventurer := true
      players_weather := true }

/-- C1 counterexample: with the room in CONFIGURING and the weather slot
marked taken, `select_role weather` is rejected with the already-taken
error and the flag is not cleared — the handler has no status-gated
reclaim branch, contradicting the claim that CONFIGURING/ACTIVE requests
are not rejected. -/
theorem claim_C1_counterexample :
    room_configuring_taken.game_status = GameStatus.configuring ∧
    room_configuring_taken.players_get PlayerRole.weather = true ∧
    (handle_select_role room_configuring_taken none PlayerRole.weather).outcome
      = MsgOutcome.error ("Role " ++ role_name PlayerRole.weather ++ " is already taken") ∧
    (handle_select_role room_configuring_taken none PlayerRole.weather).room
      = room_configuring_taken :=
  ⟨rfl, rfl, rfl, rfl⟩

/-- C1 amended: a `select_role` naming a role whose slot is marked taken
is rejected with the already-taken error regardless of room status, and
the room is left unchanged; reclaiming a role after a disconnect works
only because the disconnect path clears the slot first. -/
theorem claim_C1_amended_select_role :
    ∀ (room : GameRoom) (conn_role : Option PlayerRole) (selected_role : PlayerRole),
      room.players_get selected_role = true →
      handle_select_role room conn_role selected_role =
        ⟨room, conn_role,
          MsgOutcome.error ("Role " ++ role_name selected_role ++ " is already taken")⟩ := by
  intro room conn_role selected_role h
  unfold handle_select_role
  rw [if_pos h]

/-- Witness for C1 amended, on the concrete CONFIGURING room. -/
theorem claim_C1_amended_select_role_witness :
    handle_select_role room_configuring_taken (some PlayerRole.adventurer)
        PlayerRole.weather =
      ⟨room_configuring_taken, some PlayerRole.adventurer,
        MsgOutcome.error ("Role " ++ role_name PlayerRole.weather ++ " is already taken")⟩ :=
  claim_C1_amended_select_role room_configuring_taken (some PlayerRole.adventurer)
    PlayerRole.weather rfl

/-! ## Mutation lemmas for the flood handler -/

theorem set_field_state_grid_width (b : Board) (p : Position) (s : FieldState) :
    (b.set_field_state p s).grid_width = b.grid_width := by
  unfold Board.set_field_state
  split <;> rfl

theorem set_field_state_grid_height (b : Board) (p : Position) (s : FieldState) :
    (b.set_field_state p s).grid_height = b.grid_height := by
  unfold Board.set_field_state
  split <;> rfl

theorem is_valid_position_set (b : Board) (p : Position) (s : FieldState) (q : Position) :
    (b.set_field_state p s).is_valid_position q = b.is_valid_position q := by
  unfold Board.is_valid_position
  rw [set_field_state_grid_width, set_field_state_grid_height]

theorem set_field_state_wf (b : Board) (p : Position) (s : FieldState) (hwf : b.wf) :
    (b.set_field_state p s).wf := by
  obtain ⟨hlen, hrows⟩ := hwf
  unfold Board.set_field_state
  split
  · rename_i hv
    simp only [Board.is_valid_position, Bool.and_eq_true, decide_eq_true_eq] at hv
    constructor
    · simp only [List.length_set]
      exact hlen
    · intro row hrow
      rcases List.mem_or_eq_of_mem_set hrow with h | h
      · exact hrows row h
      · subst h
        have hy : p.y < b.grid.length := by omega
        rw [List.getElem?_eq_getElem hy]
        simp only [Option.getD_some, List.length_set]
        exact hrows _ (List.getElem_mem hy)
  · exact ⟨hlen, hrows⟩

theorem get_field_state_set (b : Board) (hwf : b.wf) (p q : Position) (s : FieldState) :
    (b.set_field_state p s).get_field_state q =
      if b.is_valid_position p = true ∧ q = p then some s
      else b.get_field_state q := by
  obtain ⟨hlen, hrows⟩ := hwf
  by_cases hvp : b.is_valid_position p = true
  · have hvp' := hvp
    simp only [Board.is_valid_position, Bool.and_eq_true, decide_eq_true_eq] at hvp'
    have hy : p.y < b.grid.length := by omega
    unfold Board.set_field_state
    rw [if_pos hvp]
    unfold Board.get_field_state
    have hval_eq : ({ b with
        grid := b.grid.set p.y (((b.grid[p.y]?).getD []).set p.x s) } : Board).is_valid_position q
        = b.is_valid_position q := rfl
    rw [hval_eq]
    by_cases hvq : b.is_valid_position q = true
    · rw [if_pos hvq, if_pos hvq]
      have hvq' := hvq
      simp only [Board.is_valid_position, Bool.and_eq_true, decide_eq_true_eq] at hvq'
      dsimp only
      rw [List.getElem?_eq_getElem hy]
      simp only [Option.getD_some]
      by_cases hyy : p.y = q.y
      · rw [List.getElem?_set, if_pos hyy, if_pos hy]
        simp only [Option.some_bind]
        by_cases hxx : p.x = q.x
        · rw [List.getElem?_set, if_pos hxx]
          rw [if_pos (by rw [hrows _ (List.getElem_mem hy)]; omega)]
          rw [if_pos ⟨hvp, by
            obtain ⟨qx, qy⟩ := q
            obtain ⟨px, py⟩ := p
            simp only [Position.mk.injEq]
            simp only at hxx hyy
            exact ⟨hxx.symm, hyy.symm⟩⟩]
        · rw [List.getElem?_set, if_neg hxx]
          rw [if_neg (by
            rintro ⟨-, rfl⟩
            exact hxx rfl)]
          rw [← hyy]
          rw [List.getElem?_eq_getElem hy]
          simp only [Option.some_bind]
      · rw [List.getElem?_set, if_neg hyy]
        rw [if_neg (by
          rintro ⟨-, rfl⟩
          exact hyy rfl)]
    · rw [if_neg hvq, if_neg (by
        rintro ⟨-, rfl⟩
        exact hvq hvp)]
      rw [if_neg hvq]
  · unfold Board.set_field_state
    rw [if_neg hvp]
    rw [if_neg (by
      rintro ⟨h1, -⟩
      exact hvp h1)]

theorem flood_apply_grid_width :
    ∀ (l : List Position) (b : Board), (flood_apply b l).grid_width = b.grid_width := by
  intro l
  induction l with
  | nil => intro b; rfl
  | cons p rest ih =>
    intro b
    unfold flood_apply
    rw [ih]
    exact set_field_state_grid_width b p FieldState.FLOODED

theorem flood_apply_grid_height :
    ∀ (l : List Position) (b : Board), (flood_apply b l).grid_height = b.grid_height := by
  intro l
  induction l with
  | nil => intro b; rfl
  | cons p rest ih =>
    intro b
    unfold flood_apply
    rw [ih]
    exact set_field_state_grid_height b p FieldState.FLOODED

theorem flood_apply_wf :
    ∀ (l : List Position) (b : Board), b.wf → (flood_apply b l).wf := by
  intro l
  induction l with
  | nil => intro b h; exact h
  | cons p rest ih =>
    intro b h
    unfold flood_apply
    exact ih _ (set_field_state_wf b p FieldState.FLOODED h)

theorem flood_apply_preserves_flooded :
    ∀ (l : List Position) (b : Board), b.wf → ∀ q : Position,
      b.get_field_state q = some FieldState.FLOODED →
      (flood_apply b l).get_field_state q = some FieldState.FLOODED := by
  intro l
  induction l with
  | nil => intro b _ q h; exact h
  | cons p rest ih =>
    intro b hwf q h
    unfold flood_apply
    refine ih _ (set_field_state_wf b p FieldState.FLOODED hwf) q ?_
    rw [get_field_state_set b hwf p q FieldState.FLOODED]
    split
    · rfl
    · exact h

theorem flood_apply_get_flooded :
    ∀ (l : List Position) (b : Board), b.wf → ∀ p ∈ l,
      b.is_valid_position p = true →
      (flood_apply b l).get_field_state p = some FieldState.FLOODED := by
  intro l
  induction l with
  | nil =>
    intro b _ p hp
    exact absurd hp (List.not_mem_nil p)
  | cons r rest ih =>
    intro b hwf p hp hv
    unfold flood_apply
    rcases List.mem_cons.mp hp with rfl | hp'
    · refine flood_apply_preserves_flooded rest _
        (set_field_state_wf b p FieldState.FLOODED hwf) p ?_
      rw [get_field_state_set b hwf p p FieldState.FLOODED]
      rw [if_pos ⟨hv, rfl⟩]
    · refine ih _ (set_field_state_wf b r FieldState.FLOODED hwf) p hp' ?_
      rw [is_valid_position_set]
      exact hv

theorem mk?_eq_some (w h : Nat) (h3 : 3 ≤ w) (h10 : w ≤ 10) (h3' : 3 ≤ h) (h10' : h ≤ 10) :
    Board.mk? w h
      = some ⟨w, h, List.replicate h (List.replicate w FieldState.DRY)⟩ := by
  unfold Board.mk?
  rw [if_neg (by omega), if_neg (by omega)]

/-! ## Claim C2 — flood handler effects -/

/-- The active 5×5 room of end-to-end scenario C: adventurer at (1,0),
turn 1, weather acting, both slots filled, all cells DRY. -/
def room_scenarioC : GameRoom :=
  { base_room with
      grid_width := some 5
      grid_height := some 5
      grid := some board5x5.grid
      adventurer_position := some ⟨1, 0⟩
      current_turn := 1
      current_role := PlayerRole.weather
      players_adventurer := true
      players_weather := true
      game_status := GameStatus.active
      max_flood_count := 2 }

/-- C2: when the weather connection floods while the room is ACTIVE, the
weather is acting and the positions validate, each listed cell becomes
FLOODED, the turn increments by exactly one, and the acting role becomes
the adventurer; in particular flooding [(2,2),(3,3)] in scenario C takes
the turn from 1 to 2 and floods both cells. -/
theorem claim_C2_flood_handler :
    (∀ (room : GameRoom) (positions : List Position) (now : Int)
        (w h : Nat) (g : List (List FieldState)) (ap : Position) (s : String),
      room.game_status = GameStatus.active →
      room.current_role = PlayerRole.weather →
      room.grid_width = some w →
      room.grid_height = some h →
      room.grid = some g →
      room.adventurer_position = some ap →
      3 ≤ w → w ≤ 10 → 3 ≤ h → h ≤ 10 →
      Board.wf ⟨w, h, g⟩ →
      validate_weather_flood ⟨w, h, g⟩ positions ap room.max_flood_count
        = Except.ok (true, s) →
      (handle_flood room (some PlayerRole.weather) positions now).room.current_turn
          = room.current_turn + 1 ∧
      (handle_flood room (some PlayerRole.weather) positions now).room.current_role
          = PlayerRole.adventurer ∧
      ∀ p ∈ positions,
        Board.get_field_state
          ⟨w, h,
            ((handle_flood room (some PlayerRole.weather) positions now).room.grid.getD [])⟩
          p = some FieldState.FLOODED) ∧
    ((handle_flood room_scenarioC (some PlayerRole.weather)
        [⟨2, 2⟩, ⟨3, 3⟩] 50).room.current_turn = 2 ∧
     (handle_flood room_scenarioC (some PlayerRole.weather)
        [⟨2, 2⟩, ⟨3, 3⟩] 50).room.current_role = PlayerRole.adventurer ∧
     Board.get_field_state
        ⟨5, 5, ((handle_flood room_scenarioC (some PlayerRole.weather)
          [⟨2, 2⟩, ⟨3, 3⟩] 50).room.grid.getD [])⟩ ⟨2, 2⟩ = some FieldState.FLOODED ∧
     Board.get_field_state
        ⟨5, 5, ((handle_flood room_scenarioC (some PlayerRole.weather)
          [⟨2, 2⟩, ⟨3, 3⟩] 50).room.grid.getD [])⟩ ⟨3, 3⟩ = some FieldState.FLOODED) := by
  constructor
  · intro room positions now w h g ap s hstat hrole hW hH hG hA h3 h10 h3' h10' hwf hval
    have hall : ∀ p ∈ positions,
        (Board.mk w h g).is_valid_position p = true ∧
        (Board.mk w h g).get_field_state p = some FieldState.DRY ∧ p ≠ ap := by
      have hv' := hval
      unfold validate_weather_flood at hv'
      split at hv'
      · exact absurd (Except.ok.inj hv') (by simp)
      · exact (flood_scan_ok_iff (Board.mk w h g) ap positions).mp ⟨s, hv'⟩
    unfold handle_flood
    dsimp only
    rw [if_neg (by simp)]
    rw [hstat]
    rw [if_neg (by simp)]
    rw [hrole]
    rw [if_neg (by simp)]
    rw [hW, hH, hG, hA]
    dsimp only
    rw [mk?_eq_some w h h3 h10 h3' h10']
    dsimp only
    rw [hval]
    dsimp only
    have hgoal : ∀ (r : HandlerResult),
        r.room.grid = some (flood_apply (Board.mk w h g) positions).grid →
        r.room.current_turn = room.current_turn + 1 →
        r.room.current_role = PlayerRole.adventurer →
        (r.room.current_turn = room.current_turn + 1 ∧
         r.room.current_role = PlayerRole.adventurer ∧
         ∀ p ∈ positions,
           Board.get_field_state ⟨w, h, (r.room.grid.getD [])⟩ p
             = some FieldState.FLOODED) := by
      intro r hg ht hr
      refine ⟨ht, hr, ?_⟩
      intro p hp
      rw [hg]
      simp only [Option.getD_some]
      have hfg := flood_apply_get_flooded positions (Board.mk w h g) hwf p hp (hall p hp).1
      have hbw : (flood_apply (Board.mk w h g) positions).grid_width = w :=
        flood_apply_grid_width positions _
      have hbh : (flood_apply (Board.mk w h g) positions).grid_height = h :=
        flood_apply_grid_height positions _
      generalize hb : flood_apply (Board.mk w h g) positions = b' at hbw hbh hfg ⊢
      obtain ⟨bw, bh, bg⟩ := b'
      simp only at hbw hbh
      subst hbw
      subst hbh
      exact hfg
    cases hcwc : check_win_condition (flood_apply (Board.mk w h g) positions) ap
        (room.current_turn + 1) PlayerRole.weather with
    | error e =>
      exact hgoal _ rfl rfl rfl
    | ok pr =>
      obtain ⟨w?, stats⟩ := pr
      cases w? with
      | none =>
        exact hgoal _ rfl rfl rfl
      | some winner =>
        exact hgoal _ rfl rfl rfl
  · refine ⟨by decide, by decide, by decide, by decide⟩

/-- Witness for C2: the general flood-handler theorem instantiated on
scenario C with the singleton flood [(2,2)]. -/
theorem claim_C2_flood_handler_witness :
    (handle_flood room_scenarioC (some PlayerRole.weather) [⟨2, 2⟩] 50).room.current_turn
        = room_scenarioC.current_turn + 1 ∧
    (handle_flood room_scenarioC (some PlayerRole.weather) [⟨2, 2⟩] 50).room.current_role
        = PlayerRole.adventurer ∧
    ∀ p ∈ [(⟨2, 2⟩ : Position)],
      Board.get_field_state
        ⟨5, 5, ((handle_flood room_scenarioC (some PlayerRole.weather)
          [⟨2, 2⟩] 50).room.grid.getD [])⟩ p = some FieldState.FLOODED :=
  claim_C2_flood_handler.1 room_scenarioC [⟨2, 2⟩] 50 5 5 board5x5.grid ⟨1, 0⟩ ""
    rfl rfl rfl rfl rfl rfl (by decide) (by decide) (by decide) (by decide)
    (by decide) (by decide)

/-! ## Claim C9 — status never regresses -/

theorem status_rank_le_three (s : GameStatus) : status_rank s ≤ 3 := by
  cases s <;> decide

theorem players_set_game_status (room : GameRoom) (r : PlayerRole) (v : Bool) :
    (room.players_set r v).game_status = room.game_status := by
  cases r <;> rfl

theorem release_old_role_game_status (room : GameRoom) (cr : Option PlayerRole)
    (sel : PlayerRole) : (release_old_role room cr sel).game_status = room.game_status := by
  cases cr with
  | none => rfl
  | some r =>
    unfold release_old_role
    dsimp only
    by_cases h : r = sel
    · rw [if_neg (by simpa using h)]
    · rw [if_pos h]
      exact players_set_game_status room r false

theorem handle_select_role_status_mono (room : GameRoom) (cr : Option PlayerRole)
    (sel : PlayerRole) :
    status_rank room.game_status
      ≤ status_rank (handle_select_role room cr sel).room.game_status := by
  unfold handle_select_role
  split
  · exact Nat.le_refl _
  · dsimp only
    split
    · rename_i hc
      have hs : ((release_old_role room cr sel).players_set sel true).game_status
          = room.game_status := by
        rw [players_set_game_status, release_old_role_game_status]
      have hw : room.game_status = GameStatus.waiting := by
        rw [← hs]
        exact hc.2.2
      rw [hw]
      exact (by decide : status_rank GameStatus.waiting ≤ status_rank GameStatus.configuring)
    · have hs : ((release_old_role room cr sel).players_set sel true).game_status
          = room.game_status := by
        rw [players_set_game_status, release_old_role_game_status]
      rw [← hs]

theorem handle_configure_grid_status_mono (room : GameRoom) (cr : Option PlayerRole)
    (w h m : Nat) :
    status_rank room.game_status
      ≤ status_rank (handle_configure_grid room cr w h m).room.game_status := by
  unfold handle_configure_grid
  cases cr with
  | none => exact Nat.le_refl _
  | some r =>
    dsimp only
    split
    · exact Nat.le_refl _
    · split
      · exact Nat.le_refl _
      · rename_i hst
        have hcfg : room.game_status = GameStatus.configuring := by
          by_contra hne
          exact hst hne
        split
        · exact Nat.le_refl _
        · split
          · exact Nat.le_refl _
          · rw [hcfg]
            exact (by decide :
              status_rank GameStatus.configuring ≤ status_rank GameStatus.active)

theorem handle_move_status_mono (room : GameRoom) (cr : Option PlayerRole)
    (tgt : Position) (now : Int) :
    status_rank room.game_status
      ≤ status_rank (handle_move room cr tgt now).room.game_status := by
  unfold handle_move
  cases cr with
  | none => exact Nat.le_refl _
  | some r =>
    dsimp only
    repeat' (first
      | exact Nat.le_refl _
      | exact status_rank_le_three _
      | split)

theorem handle_flood_status_mono (room : GameRoom) (cr : Option PlayerRole)
    (positions : List Position) (now : Int) :
    status_rank room.game_status
      ≤ status_rank (handle_flood room cr positions now).room.game_status := by
  unfold handle_flood
  cases cr with
  | none => exact Nat.le_refl _
  | some r =>
    dsimp only
    repeat' (first
      | exact Nat.le_refl _
      | exact status_rank_le_three _
      | split)

theorem handle_disconnect_status_mono (room : GameRoom) (cr : Option PlayerRole) :
    status_rank room.game_status
      ≤ status_rank (handle_disconnect room cr).room.game_status := by
  unfold handle_disconnect
  cases cr with
  | none => exact Nat.le_refl _
  | some r =>
    dsimp only
    rw [players_set_game_status]

theorem handle_message_status_mono (room : GameRoom) (cr : Option PlayerRole)
    (now : Int) (msg : ClientMsg) :
    status_rank room.game_status
      ≤ status_rank (handle_message room cr now msg).room.game_status := by
  cases msg with
  | select_role r => exact handle_select_role_status_mono room cr r
  | configure_grid w h m => exact handle_configure_grid_status_mono room cr w h m
  | move p => exact handle_move_status_mono room cr p now
  | flood ps => exact handle_flood_status_mono room cr ps now
  | disconnect => exact handle_disconnect_status_mono room cr
  | unknown => exact Nat.le_refl _

/-- C9: the room status only ever advances along WAITING → CONFIGURING →
ACTIVE → ENDED: no handled message and no disconnect sets the status to
an earlier phase, over every sequence of interleaved events. -/
theorem claim_C9_status_monotone :
    (∀ (room : GameRoom) (conn_role : Option PlayerRole) (now : Int) (msg : ClientMsg),
      status_rank room.game_status
        ≤ status_rank (handle_message room conn_role now msg).room.game_status) ∧
    (∀ (events : List RoomEvent) (room : GameRoom),
      status_rank room.game_status
        ≤ status_rank (run_messages room events).game_status) := by
  refine ⟨handle_message_status_mono, ?_⟩
  intro events
  induction events with
  | nil => intro room; exact Nat.le_refl _
  | cons e es ih =>
    intro room
    exact Nat.le_trans (handle_message_status_mono room e.conn_role e.now e.msg)
      (ih (handle_message room e.conn_role e.now e.msg).room)

end FloodedIsland
